import Mathlib

/-!
# SamplesController (src/js/controller/common/samples.mjs)

A shallow embedding of the parts of `SamplesController` that decide tool
activation (`checkActiveTool`), GIF export (`getVideoGif`), UI state
serialisation (`getDefaultState`, `getState`) and animation stepping
(`setActive`, `tickAnimation`).

Calls into the DOM, the browser and the views are recorded, in program order,
as a list of `Effect`s.  The helper `isEmpty` of `base/helpers.mjs` is a
parameter of every definition that calls it.
-/

namespace Enfugue

/-! ## JavaScript values -/

/-- One UTF-16 code unit of a JavaScript string. -/
abbrev CodeUnit := Nat

/-- A JavaScript string: its sequence of UTF-16 code units, so that `length`
and `substring` count the way the engine does. -/
abbrev JSString := List CodeUnit

/-- The string written as a literal in the source (all of them are ASCII). -/
def lit (s : String) : JSString := s.data.map Char.toNat

/-- A handle on a window object returned by `windows.spawnWindow`. -/
structure Window where
  id : Nat
  deriving DecidableEq, Repr

/-- A property of the controller: never assigned (`undefined`), reset to
`null`, or holding a value of its type. -/
inductive Nullable (α : Type) where
  | undefined
  | null
  | val (a : α)
  deriving DecidableEq, Repr

/-- The JavaScript values that reach the helper `isEmpty`. -/
inductive Value where
  | undefined
  | null
  | boolean (b : Bool)
  | number (n : Int)
  | string (s : JSString)
  | array (xs : List JSString)
  | object (ref : Nat)
  deriving DecidableEq, Repr

/-- The value held in a property, given how its payload embeds. -/
def Nullable.toValue {α : Type} (inj : α → Value) : Nullable α → Value
  | .undefined => .undefined
  | .null => .null
  | .val a => inj a

/-- What a `throw` or a failed property access completes with. -/
inductive JSError where
  | typeError
  | thrown (message : JSString)
  deriving DecidableEq, Repr

instance {ε α : Type} [DecidableEq ε] [DecidableEq α] : DecidableEq (Except ε α)
  | .ok a, .ok b => if h : a = b then isTrue (by rw [h]) else isFalse (by simpa using h)
  | .error a, .error b => if h : a = b then isTrue (by rw [h]) else isFalse (by simpa using h)
  | .ok _, .error _ => isFalse (by simp)
  | .error _, .ok _ => isFalse (by simp)

/-- The imported helpers of `base/helpers.mjs` the controller calls. -/
structure Helpers where
  isEmpty : Value → Bool

/-- The contract the call sites rely on: `null` and `undefined` are empty, so
that a method call guarded by `!isEmpty(x)` has a receiver. -/
def Helpers.NullishEmpty (h : Helpers) : Prop :=
  h.isEmpty .null = true ∧ h.isEmpty .undefined = true

instance (h : Helpers) : Decidable h.NullishEmpty := by
  unfold Helpers.NullishEmpty; infer_instance

/-- One helper satisfying that contract, used to evaluate the controller on
concrete inputs: it calls empty `null`, `undefined`, the empty string and the
empty array. -/
def sampleHelpers : Helpers where
  isEmpty
    | .undefined => true
    | .null => true
    | .string s => s.isEmpty
    | .array xs => xs.isEmpty
    | _ => false

/-! ## String built-ins -/

/-- `String.prototype.endsWith(searchString)` with the default end position. -/
def endsWith (s searchString : JSString) : Bool :=
  decide (searchString.length ≤ s.length) &&
    (s.drop (s.length - searchString.length) == searchString)

/-- Clamp an index into `[0, len]`, as `substring` does with its arguments. -/
def clampIndex (len : Nat) (i : Int) : Nat :=
  min (max i 0).toNat len

/-- `String.prototype.substring(start, end)`: both arguments are clamped to the
string and swapped when out of order. -/
def substring (s : JSString) (start stop : Int) : JSString :=
  let a := clampIndex s.length start
  let b := clampIndex s.length stop
  (s.drop (min a b)).take (max a b - min a b)

/-! ## Effects -/

/-- The calls the controller makes on its collaborators. -/
inductive Effect where
  /-- `this.notify(level, title, message)` -/
  | notify (level title message : JSString)
  /-- `window.focus()` on a spawned window -/
  | focus (w : Window)
  /-- `window.open(url, target)` -/
  | windowOpen (url target : JSString)
  /-- `this.sampleChooser.setActiveIndex(index, trigger)` -/
  | chooserSetActiveIndex (index : Nullable Int) (trigger : Bool)
  /-- `this.sampleChooser.setPlayAnimation(play)` -/
  | chooserSetPlayAnimation (play : Bool)
  /-- `this.sampleViewer.setFrame(index)` -/
  | viewerSetFrame (index : Nullable Int)
  /-- `this.sampleViewer.setImage(src)`; `undefined` for a missing element -/
  | viewerSetImage (src : Nullable JSString)
  /-- `this.sampleViewer.hide()` -/
  | viewerHide
  /-- `this.imageToolsMenu.show()` -/
  | imageToolsShow
  /-- `this.imageToolsMenu.hide()` -/
  | imageToolsHide
  /-- `this.videoToolsMenu.show()` -/
  | videoToolsShow
  /-- `this.videoToolsMenu.hide()` -/
  | videoToolsHide
  /-- `this.images.removeClass(name)` -/
  | imagesRemoveClass (name : JSString)
  /-- `this.images.setDimension(this.engine.width, this.engine.height)` -/
  | imagesSetEngineDimension
  /-- `sleep(100).then(...)`: the deferred resize to the viewer's dimensions -/
  | deferViewerDimension
  /-- `clearTimeout(handle)` -/
  | clearTimeout (handle : Nullable Nat)
  /-- `setTimeout(() => this.tickAnimation(), delay)` returning `handle` -/
  | setTimeoutTick (handle : Nat)
  /-- `requestAnimationFrame(callback)` with the frame callback of `tickAnimation` -/
  | requestAnimationFrame
  deriving DecidableEq, Repr

/-! ## The controller -/

/-- The properties of a `SamplesController` instance read or written here. -/
structure SamplesController where
  imageAdjustmentWindow : Nullable Window
  imageFilterWindow : Nullable Window
  imageUpscaleWindow : Nullable Window
  imageDownscaleWindow : Nullable Window
  video : Nullable JSString
  samples : Nullable (List JSString)
  isIntermediate : Bool
  isAnimation : Nullable Bool
  activeIndex : Nullable Int
  /-- only tested for truthiness: `undefined` reads as `false` -/
  isPlaying : Bool
  /-- only tested for truthiness: `undefined` reads as `false` -/
  isLooping : Bool
  tick : Nullable Nat
  /-- `this.model.api.baseUrl` -/
  baseUrl : JSString
  deriving DecidableEq, Repr

/-- The value of a window property as `isEmpty` sees it. -/
def windowValue (w : Nullable Window) : Value :=
  w.toValue (fun x => .object x.id)

/-- The outcome of a method that does not write the controller: how it
completed, and the calls it made. -/
structure Outcome (α : Type) where
  result : Except JSError α
  effects : List Effect

/-- The statements `w.focus(); return true;` on a window property: the call is
a `TypeError` without a receiver. -/
def focusWindow (w : Nullable Window) : Outcome Bool :=
  match w with
  | .val x => ⟨.ok true, [.focus x]⟩
  | _ => ⟨.error .typeError, []⟩

/-- `SamplesController.checkActiveTool(intendedAction)`. -/
def checkActiveTool (h : Helpers) (c : SamplesController)
    (intendedAction : JSString) : Outcome Bool :=
  if !h.isEmpty (windowValue c.imageAdjustmentWindow) then
    if intendedAction ≠ lit "adjust" then
      ⟨.ok true, [.notify (lit "warn") (lit "Finish Adjusting")
        (lit "Complete adjustments before trying to " ++ intendedAction ++ lit ".")]⟩
    else
      focusWindow c.imageAdjustmentWindow
  else if !h.isEmpty (windowValue c.imageFilterWindow) then
    if intendedAction ≠ lit "filter" then
      ⟨.ok true, [.notify (lit "warn") (lit "Finish Filtering")
        (lit "Complete filtering before trying to " ++ intendedAction ++ lit ".")]⟩
    else
      focusWindow c.imageFilterWindow
  else if !h.isEmpty (windowValue c.imageUpscaleWindow) then
    if intendedAction ≠ lit "upscale" then
      ⟨.ok true, [.notify (lit "warn") (lit "Finish Upscaling")
        (lit "Complete your upscale selection or cancel before trying to "
          ++ intendedAction ++ lit ".")]⟩
    else
      focusWindow c.imageUpscaleWindow
  else if !h.isEmpty (windowValue c.imageDownscaleWindow) then
    if intendedAction ≠ lit "downscale" then
      ⟨.ok true, [.notify (lit "warn") (lit "Finish Downscaling")
        (lit "Complete your downscale selection or cancel before trying to "
          ++ intendedAction ++ lit ".")]⟩
    else
      focusWindow c.imageDownscaleWindow
  else
    ⟨.ok false, []⟩

/-- A controller right after `initialize()`: nothing open, nothing loaded. -/
def idle : SamplesController where
  imageAdjustmentWindow := .undefined
  imageFilterWindow := .undefined
  imageUpscaleWindow := .undefined
  imageDownscaleWindow := .undefined
  video := .undefined
  samples := .undefined
  isIntermediate := false
  isAnimation := .undefined
  activeIndex := .val 0
  isPlaying := false
  isLooping := false
  tick := .undefined
  baseUrl := lit "http://localhost/api"

/-! ## GIF export -/

/-- `SamplesController.getVideoGif()`; the rejection of the returned promise is
the `error` result. -/
def getVideoGif (h : Helpers) (c : SamplesController) : Outcome Unit :=
  if h.isEmpty (c.video.toValue .string) then
    ⟨.error (.thrown (lit "Video is empty or not a URL.")), []⟩
  else
    match c.video with
    | .val video =>
      if !endsWith video (lit "mp4") then
        ⟨.error (.thrown (lit "Video is empty or not a URL.")), []⟩
      else
        let gifURL := substring video 0 ((video.length : Int) - 4) ++ lit ".gif"
        ⟨.ok (), [.windowOpen gifURL (lit "_blank")]⟩
    | _ => ⟨.error .typeError, []⟩

/-! ## UI state -/

/-- The object under the key `"samples"` of the controller's UI state. -/
structure SamplesState where
  urls : Nullable (List JSString)
  active : Nullable Int
  video : Nullable JSString
  animation : Nullable Bool
  deriving DecidableEq, Repr

/-- The object `getState` and `getDefaultState` return. -/
structure UIState where
  samples : SamplesState
  deriving DecidableEq, Repr

/-- The getter `SamplesController.sampleUrls`; `this.samples.map` is a
`TypeError` when `samples` is not an array. -/
def sampleUrls (h : Helpers) (c : SamplesController) : Except JSError (List JSString) :=
  if h.isEmpty (c.samples.toValue .array) then
    .ok []
  else
    match c.samples with
    | .val samples =>
      if c.isIntermediate then
        .ok (samples.map fun v =>
          c.baseUrl ++ lit "/invocation/intermediates/" ++ v ++ lit ".png")
      else
        .ok (samples.map fun v =>
          c.baseUrl ++ lit "/invocation/images/" ++ v ++ lit ".png")
    | _ => .error .typeError

/-- `SamplesController.getDefaultState()`. -/
def getDefaultState : UIState :=
  { samples := { urls := .null, active := .null, video := .null, animation := .val false } }

/-- `SamplesController.getState(includeImages)`. -/
def getState (h : Helpers) (c : SamplesController) (includeImages : Bool) :
    Except JSError UIState :=
  if !includeImages then
    .ok getDefaultState
  else
    match sampleUrls h c with
    | .error e => .error e
    | .ok urls =>
      .ok { samples :=
        { urls := .val urls, active := c.activeIndex,
          animation := c.isAnimation, video := c.video } }

/-! ## Animation -/

/-- The outcome of a method that writes the controller: how it completed, the
controller it leaves and the calls it made. -/
structure Step where
  result : Except JSError Unit
  ctl : SamplesController
  effects : List Effect
  deriving DecidableEq

/-- Truthiness of a flag property, as `if (this.isAnimation)` tests it. -/
def truthy : Nullable Bool → Bool
  | .val b => b
  | _ => false

/-- The value of an index as `isEmpty` sees it. -/
def indexValue (i : Nullable Int) : Value :=
  i.toValue .number

/-- The element `xs[i]` of an array: `undefined` off the array. -/
def elementAt (xs : List JSString) (i : Nullable Int) : Nullable JSString :=
  match i with
  | .val n =>
    if 0 ≤ n then
      match xs.get? n.toNat with
      | some x => .val x
      | none => .undefined
    else .undefined
  | _ => .undefined

/-- `SamplesController.setActive(activeIndex)`. -/
def setActive (h : Helpers) (activeIndex : Nullable Int) (c : SamplesController) : Step :=
  let c := { c with activeIndex := activeIndex }
  let shown : Except JSError (List Effect) :=
    if truthy c.isAnimation then
      .ok ([.chooserSetActiveIndex activeIndex false, .viewerSetFrame activeIndex] ++
        (if !h.isEmpty (indexValue activeIndex) then
          [.imageToolsHide] ++
            (if !h.isEmpty (c.video.toValue .string) then [.videoToolsShow] else [])
        else []))
    else
      match sampleUrls h c with
      | .error e => .error e
      | .ok urls =>
        .ok ([.viewerSetImage (elementAt urls c.activeIndex)] ++
          (if !h.isEmpty (indexValue activeIndex) then
            [.imageToolsShow, .videoToolsHide]
          else []))
  match shown with
  | .error e => ⟨.error e, c, []⟩
  | .ok es =>
    if h.isEmpty (indexValue activeIndex) then
      ⟨.ok (), c,
        es ++ [.imagesRemoveClass (lit "has-sample"), .imagesSetEngineDimension, .viewerHide]⟩
    else
      ⟨.ok (), c, es ++ [.deferViewerDimension]⟩

/-- The number `activeIndex + 1`: `null` counts as `0`, and `undefined` gives
`NaN`, which is `none` here. -/
def plusOne : Nullable Int → Option Int
  | .val n => some (n + 1)
  | .null => some 1
  | .undefined => none

/-- The tail of the frame callback after `setActive` returned: the pending tick
is cleared and the next one is set, `handle` being what `setTimeout` returns.
The delay, a difference of wall-clock readings, is not recorded. -/
def scheduleNext (handle : Nat) (s : Step) : Step :=
  match s.result with
  | .error _ => s
  | .ok _ =>
    ⟨.ok (), { s.ctl with tick := .val handle },
      s.effects ++ [.clearTimeout s.ctl.tick, .setTimeoutTick handle]⟩

/-- The callback `tickAnimation` hands to `requestAnimationFrame`, run on the
controller as it is when the frame comes. -/
def frameCallback (h : Helpers) (handle : Nat) (c : SamplesController) : Step :=
  let activeIndex := c.activeIndex
  match c.samples with
  | .val samples =>
    let frameLength : Int := samples.length
    let nextIndex := plusOne activeIndex
    if c.isPlaying then
      let orLoop : Step :=
        if c.isLooping then
          scheduleNext handle (setActive h (.val 0) c)
        else
          ⟨.ok (), c, [.chooserSetPlayAnimation false]⟩
      match nextIndex with
      | some n =>
        if n < frameLength then
          scheduleNext handle (setActive h (.val n) c)
        else orLoop
      | none => orLoop
    else
      ⟨.ok (), c, []⟩
  | _ => ⟨.error .typeError, c, []⟩

/-- `SamplesController.tickAnimation()`: the calls it makes; the controller is
written by the frame callback only. -/
def tickAnimation (h : Helpers) (c : SamplesController) : List Effect :=
  if h.isEmpty (c.samples.toValue .array) then []
  else [.requestAnimationFrame]

/-- Is the call a `setTimeout` of the next tick? -/
def Effect.isTick : Effect → Bool
  | .setTimeoutTick _ => true
  | _ => false

/-- The number of ticks a list of calls schedules. -/
def ticksScheduled (es : List Effect) : Nat :=
  es.countP Effect.isTick

/-! ## The tools in the order `checkActiveTool` tests them -/

/-- The four image tools that own a window. -/
inductive Tool where
  | adjust
  | filter
  | upscale
  | downscale
  deriving DecidableEq, Repr

/-- The name a caller passes as `intendedAction` to start the tool. -/
def Tool.actionName : Tool → JSString
  | .adjust => lit "adjust"
  | .filter => lit "filter"
  | .upscale => lit "upscale"
  | .downscale => lit "downscale"

/-- The window property of each tool, in the order adjust, filter, upscale,
downscale. -/
def toolWindows (c : SamplesController) : List (Tool × Nullable Window) :=
  [(.adjust, c.imageAdjustmentWindow), (.filter, c.imageFilterWindow),
   (.upscale, c.imageUpscaleWindow), (.downscale, c.imageDownscaleWindow)]

/-- The first open tool, as the description of `checkActiveTool` words it: the
first, in that order, whose window is not empty. -/
def firstOpenTool (h : Helpers) (c : SamplesController) : Option (Tool × Nullable Window) :=
  (toolWindows c).find? fun p => !h.isEmpty (windowValue p.2)

/-! ## Sample controllers -/

/-- A controller whose upscale window is the only one open. -/
def upscaling : SamplesController :=
  { idle with imageUpscaleWindow := .val ⟨3⟩ }

/-- A controller playing three frames from the first one, without looping. -/
def clip : SamplesController :=
  { idle with samples := .val [lit "a", lit "b", lit "c"], isPlaying := true }

/-- A controller whose video is served under a query string ending in `mp4`. -/
def queryVideo : SamplesController :=
  { idle with video := .val (lit "clip?fmt=mp4") }

/-- A controller whose video is the bare string `mp4`. -/
def bareVideo : SamplesController :=
  { idle with video := .val (lit "mp4") }

/-! ## Lemmas -/

theorem window_of_not_isEmpty (h : Helpers) (hn : h.NullishEmpty) (w : Nullable Window)
    (hw : h.isEmpty (windowValue w) = false) : ∃ x, w = .val x := by
  obtain ⟨h1, h2⟩ := hn
  cases w with
  | undefined => simp [windowValue, Nullable.toValue, h2] at hw
  | null => simp [windowValue, Nullable.toValue, h1] at hw
  | val x => exact ⟨x, rfl⟩

theorem focusWindow_result (h : Helpers) (hn : h.NullishEmpty) (w : Nullable Window)
    (hw : h.isEmpty (windowValue w) = false) : (focusWindow w).result = .ok true := by
  obtain ⟨x, rfl⟩ := window_of_not_isEmpty h hn w hw
  rfl





theorem sampleUrls_of_array (h : Helpers) (c : SamplesController) (xs : List JSString)
    (hs : c.samples = .val xs) : ∃ urls, sampleUrls h c = .ok urls := by
  unfold sampleUrls
  rw [hs]
  split_ifs <;> simp

theorem setActive_ctl (h : Helpers) (i : Nullable Int) (c : SamplesController) :
    (setActive h i c).ctl = { c with activeIndex := i } := by
  cases ha : truthy c.isAnimation <;>
  cases he : h.isEmpty (indexValue i) <;>
  cases hu : sampleUrls h { c with activeIndex := i } <;>
  simp [setActive, ha, he, hu]

theorem setActive_result (h : Helpers) (i : Nullable Int) (c : SamplesController)
    (xs : List JSString) (hs : c.samples = .val xs) :
    (setActive h i c).result = .ok () := by
  obtain ⟨urls, hu⟩ := sampleUrls_of_array h { c with activeIndex := i } xs hs
  cases ha : truthy c.isAnimation <;>
  cases he : h.isEmpty (indexValue i) <;>
  simp [setActive, ha, he, hu]

theorem setActive_ticks (h : Helpers) (i : Nullable Int) (c : SamplesController) :
    ticksScheduled (setActive h i c).effects = 0 := by
  cases ha : truthy c.isAnimation <;>
  cases he : h.isEmpty (indexValue i) <;>
  cases hv : h.isEmpty (c.video.toValue .string) <;>
  cases hu : sampleUrls h { c with activeIndex := i } <;>
  simp [setActive, ha, he, hv, hu, ticksScheduled, Effect.isTick]

theorem scheduleNext_ok (handle : Nat) (s : Step) (hr : s.result = .ok ()) :
    scheduleNext handle s =
      ⟨.ok (), { s.ctl with tick := .val handle },
        s.effects ++ [.clearTimeout s.ctl.tick, .setTimeoutTick handle]⟩ := by
  unfold scheduleNext
  rw [hr]

theorem substring_zero_length_sub (s : JSString) (k : Nat) :
    substring s 0 ((s.length : Int) - k) = s.take (s.length - k) := by
  have h0 : clampIndex s.length 0 = 0 := by simp [clampIndex]
  have h1 : clampIndex s.length ((s.length : Int) - k) = s.length - k := by
    unfold clampIndex
    omega
  simp [substring, h0, h1]

theorem lit_dot_mp4 : lit ".mp4" = [46, 109, 112, 52] := by decide

theorem lit_mp4 : lit "mp4" = [109, 112, 52] := by decide

theorem endsWith_dot_mp4 (stem : JSString) : endsWith (stem ++ lit ".mp4") (lit "mp4") = true := by
  have hd : (stem ++ [46, 109, 112, 52] : JSString).drop (stem.length + 1) = [109, 112, 52] := by
    rw [show stem ++ [46, 109, 112, 52] = (stem ++ [46]) ++ ([109, 112, 52] : JSString) by simp]
    rw [List.drop_append_of_le_length (by simp)]
    simp
  simp [endsWith, lit_dot_mp4, lit_mp4, hd]

/-- On a video whose name ends with the extension `.mp4`, `getVideoGif` opens
the same name with the extension `.gif`. -/
theorem getVideoGif_dotted (h : Helpers) (c : SamplesController) (stem : JSString)
    (hv : c.video = .val (stem ++ lit ".mp4"))
    (hne : h.isEmpty (.string (stem ++ lit ".mp4")) = false) :
    getVideoGif h c = ⟨.ok (), [.windowOpen (stem ++ lit ".gif") (lit "_blank")]⟩ := by
  have hl : (stem ++ lit ".mp4").length - 4 = stem.length := by simp [lit_dot_mp4]
  have hsub := substring_zero_length_sub (stem ++ lit ".mp4") 4
  rw [hl, List.take_left] at hsub
  simp only [Nat.cast_ofNat] at hsub
  simp only [getVideoGif, hv, Nullable.toValue, hne, endsWith_dot_mp4, hsub]
  simp

/-! ## Claims -/

/-- C1: with a helper for which `null` and `undefined` are empty,
`checkActiveTool` returns `true` exactly when one of the four tool windows is
not empty, and returns `false` when all four are empty, whatever the intended
action. -/
theorem checkActiveTool_true_iff_window_open (h : Helpers) (hn : h.NullishEmpty)
    (c : SamplesController) (intendedAction : JSString) :
    ((checkActiveTool h c intendedAction).result = .ok true ↔
      (h.isEmpty (windowValue c.imageAdjustmentWindow) = false ∨
       h.isEmpty (windowValue c.imageFilterWindow) = false ∨
       h.isEmpty (windowValue c.imageUpscaleWindow) = false ∨
       h.isEmpty (windowValue c.imageDownscaleWindow) = false)) ∧
    ((h.isEmpty (windowValue c.imageAdjustmentWindow) = true ∧
       h.isEmpty (windowValue c.imageFilterWindow) = true ∧
       h.isEmpty (windowValue c.imageUpscaleWindow) = true ∧
       h.isEmpty (windowValue c.imageDownscaleWindow) = true) →
      (checkActiveTool h c intendedAction).result = .ok false) := by
  cases h1 : h.isEmpty (windowValue c.imageAdjustmentWindow) <;>
  cases h2 : h.isEmpty (windowValue c.imageFilterWindow) <;>
  cases h3 : h.isEmpty (windowValue c.imageUpscaleWindow) <;>
  cases h4 : h.isEmpty (windowValue c.imageDownscaleWindow) <;>
  simp only [checkActiveTool, h1, h2, h3, h4, Bool.not_false, Bool.not_true, if_true,
    Bool.false_eq_true, if_false] <;>
  (try split_ifs) <;>
  simp [focusWindow_result h hn, *]

theorem checkActiveTool_true_iff_window_open_witness :
    sampleHelpers.NullishEmpty ∧
    (checkActiveTool sampleHelpers upscaling (lit "filter")).result = .ok true :=
  ⟨by decide,
    (checkActiveTool_true_iff_window_open sampleHelpers (by decide) upscaling
      (lit "filter")).1.2 (by decide)⟩

/-- C2: with a helper for which `null` and `undefined` are empty,
`checkActiveTool` returns `true` or `false`; when it returns `true` its only
call is decided by the first open tool in the order adjust, filter, upscale,
downscale: a `focus` of that tool's window when the intended action is that
tool's name, and otherwise one `"warn"` notification; when it returns `false`
it makes no call at all. -/
theorem checkActiveTool_single_effect (h : Helpers) (hn : h.NullishEmpty)
    (c : SamplesController) (intendedAction : JSString) :
    ((checkActiveTool h c intendedAction).result = .ok true ∨
      (checkActiveTool h c intendedAction).result = .ok false) ∧
    ((checkActiveTool h c intendedAction).result = .ok true →
      ∃ t x, firstOpenTool h c = some (t, .val x) ∧
        (intendedAction = t.actionName →
          (checkActiveTool h c intendedAction).effects = [.focus x]) ∧
        (intendedAction ≠ t.actionName →
          ∃ title message,
            (checkActiveTool h c intendedAction).effects =
              [.notify (lit "warn") title message])) ∧
    ((checkActiveTool h c intendedAction).result = .ok false →
      (checkActiveTool h c intendedAction).effects = []) := by
  cases h1 : h.isEmpty (windowValue c.imageAdjustmentWindow)
  · obtain ⟨x, e⟩ := window_of_not_isEmpty h hn _ h1
    have hx := h1
    rw [e] at hx
    have hf : firstOpenTool h c = some (.adjust, .val x) := by
      simp [firstOpenTool, toolWindows, h1, ← e]
    refine ⟨?_, fun _ => ⟨.adjust, x, hf, ?_, ?_⟩, ?_⟩ <;>
    by_cases ha : intendedAction = lit "adjust" <;>
    simp [checkActiveTool, h1, ha, e, hx, focusWindow, Tool.actionName]
  cases h2 : h.isEmpty (windowValue c.imageFilterWindow)
  · obtain ⟨x, e⟩ := window_of_not_isEmpty h hn _ h2
    have hx := h2
    rw [e] at hx
    have hf : firstOpenTool h c = some (.filter, .val x) := by
      simp [firstOpenTool, toolWindows, h1, h2, ← e]
    refine ⟨?_, fun _ => ⟨.filter, x, hf, ?_, ?_⟩, ?_⟩ <;>
    by_cases ha : intendedAction = lit "filter" <;>
    simp [checkActiveTool, h1, h2, ha, e, hx, focusWindow, Tool.actionName]
  cases h3 : h.isEmpty (windowValue c.imageUpscaleWindow)
  · obtain ⟨x, e⟩ := window_of_not_isEmpty h hn _ h3
    have hx := h3
    rw [e] at hx
    have hf : firstOpenTool h c = some (.upscale, .val x) := by
      simp [firstOpenTool, toolWindows, h1, h2, h3, ← e]
    refine ⟨?_, fun _ => ⟨.upscale, x, hf, ?_, ?_⟩, ?_⟩ <;>
    by_cases ha : intendedAction = lit "upscale" <;>
    simp [checkActiveTool, h1, h2, h3, ha, e, hx, focusWindow, Tool.actionName]
  cases h4 : h.isEmpty (windowValue c.imageDownscaleWindow)
  · obtain ⟨x, e⟩ := window_of_not_isEmpty h hn _ h4
    have hx := h4
    rw [e] at hx
    have hf : firstOpenTool h c = some (.downscale, .val x) := by
      simp [firstOpenTool, toolWindows, h1, h2, h3, h4, ← e]
    refine ⟨?_, fun _ => ⟨.downscale, x, hf, ?_, ?_⟩, ?_⟩ <;>
    by_cases ha : intendedAction = lit "downscale" <;>
    simp [checkActiveTool, h1, h2, h3, h4, ha, e, hx, focusWindow, Tool.actionName]
  · simp [checkActiveTool, h1, h2, h3, h4]

theorem checkActiveTool_single_effect_witness :
    sampleHelpers.NullishEmpty ∧
    ((checkActiveTool sampleHelpers upscaling (lit "filter")).result = .ok true →
      ∃ t x, firstOpenTool sampleHelpers upscaling = some (t, .val x) ∧
        (lit "filter" = t.actionName →
          (checkActiveTool sampleHelpers upscaling (lit "filter")).effects = [.focus x]) ∧
        (lit "filter" ≠ t.actionName →
          ∃ title message,
            (checkActiveTool sampleHelpers upscaling (lit "filter")).effects =
              [.notify (lit "warn") title message])) :=
  ⟨by decide,
    (checkActiveTool_single_effect sampleHelpers (by decide) upscaling (lit "filter")).2.1⟩

/-- C3: `getVideoGif` raises exactly when the video is empty or is not a string
ending with `"mp4"`, and when it raises it has made no call, so no URL is
opened. -/
theorem getVideoGif_raises_iff (h : Helpers) (c : SamplesController) :
    ((∃ e, (getVideoGif h c).result = .error e) ↔
      (h.isEmpty (c.video.toValue .string) = true ∨
        ¬ ∃ v, c.video = .val v ∧ endsWith v (lit "mp4") = true)) ∧
    (∀ e, (getVideoGif h c).result = .error e → (getVideoGif h c).effects = []) := by
  unfold getVideoGif
  cases h1 : h.isEmpty (c.video.toValue .string)
  · cases hv : c.video with
    | undefined => simp
    | null => simp
    | val v => cases h2 : endsWith v (lit "mp4") <;> simp [h2]
  · simp

/-- C4: evaluation of `getVideoGif` on videos that end with `mp4` but not with
`.mp4`.  On `clip?fmt=mp4` it does not raise and opens `clip?fmt.gif`, which
differs from the video before the last three characters; on `mp4` it does not
raise and opens `.gif`, which is one character longer than the video. -/
theorem getVideoGif_undotted_suffix :
    (getVideoGif sampleHelpers queryVideo).result = .ok () ∧
    (getVideoGif sampleHelpers queryVideo).effects =
      [.windowOpen (lit "clip?fmt.gif") (lit "_blank")] ∧
    (lit "clip?fmt.gif").length = (lit "clip?fmt=mp4").length ∧
    (lit "clip?fmt.gif").take ((lit "clip?fmt=mp4").length - 3) ≠
      (lit "clip?fmt=mp4").take ((lit "clip?fmt=mp4").length - 3) ∧
    (getVideoGif sampleHelpers bareVideo).result = .ok () ∧
    (getVideoGif sampleHelpers bareVideo).effects = [.windowOpen (lit ".gif") (lit "_blank")] ∧
    (lit ".gif").length ≠ (lit "mp4").length := by
  decide

/-- C5: whatever the controller holds, `getState(false)` returns the default
state, whose `samples` has `urls`, `active` and `video` `null` and `animation`
`false`. -/
theorem getState_false_eq_default (h : Helpers) (c : SamplesController) :
    getState h c false = .ok getDefaultState ∧
    getDefaultState.samples.urls = .null ∧
    getDefaultState.samples.active = .null ∧
    getDefaultState.samples.video = .null ∧
    getDefaultState.samples.animation = .val false :=
  ⟨rfl, rfl, rfl, rfl, rfl⟩

/-- C6: on a controller that is playing, whose samples are an array of length
`n` and whose active index `i` satisfies `0 ≤ i < n`, the frame callback of
`tickAnimation` completes normally and leaves the samples alone; it moves the
active index to `i + 1` when that is below `n`, else to `0` when looping, and
in both cases sets exactly one timeout for the next tick, whose handle it
stores; when neither holds it keeps the active index, its only call tells the
chooser to stop playing, and it sets no timeout.  In every case the active
index stays within `0 ≤ · < n`. -/
theorem frameCallback_step (h : Helpers) (handle : Nat) (c : SamplesController)
    (samples : List JSString) (i : Int)
    (hs : c.samples = .val samples) (hp : c.isPlaying = true)
    (hi : c.activeIndex = .val i) (h0 : 0 ≤ i) (hn : i < samples.length) :
    (frameCallback h handle c).result = .ok () ∧
    (frameCallback h handle c).ctl.samples = .val samples ∧
    (i + 1 < samples.length →
      (frameCallback h handle c).ctl.activeIndex = .val (i + 1) ∧
      ticksScheduled (frameCallback h handle c).effects = 1 ∧
      (frameCallback h handle c).ctl.tick = .val handle) ∧
    (¬ i + 1 < samples.length → c.isLooping = true →
      (frameCallback h handle c).ctl.activeIndex = .val 0 ∧
      ticksScheduled (frameCallback h handle c).effects = 1 ∧
      (frameCallback h handle c).ctl.tick = .val handle) ∧
    (¬ i + 1 < samples.length → c.isLooping = false →
      (frameCallback h handle c).ctl.activeIndex = .val i ∧
      (frameCallback h handle c).effects = [.chooserSetPlayAnimation false] ∧
      ticksScheduled (frameCallback h handle c).effects = 0) ∧
    (∃ j : Int, (frameCallback h handle c).ctl.activeIndex = .val j ∧
      0 ≤ j ∧ j < samples.length) := by
  have hpos : (0 : Int) < samples.length := lt_of_le_of_lt h0 hn
  by_cases hlt : i + 1 < (samples.length : Int)
  · have hf : frameCallback h handle c = scheduleNext handle (setActive h (.val (i + 1)) c) := by
      simp [frameCallback, hs, hp, hi, plusOne, hlt]
    rw [hf, scheduleNext_ok _ _ (setActive_result h _ c samples hs)]
    simp [setActive_ctl, setActive_ticks, ticksScheduled, Effect.isTick, List.countP_append,
      hs, hlt]
    constructor
    · simpa [ticksScheduled] using setActive_ticks h (.val (i + 1)) c
    · omega
  · cases hl : c.isLooping
    · have hf : frameCallback h handle c = ⟨.ok (), c, [.chooserSetPlayAnimation false]⟩ := by
        simp [frameCallback, hs, hp, hi, plusOne, hlt, hl]
      rw [hf]
      simp [hs, hi, hlt, ticksScheduled, Effect.isTick, h0, hn]
    · have hf : frameCallback h handle c = scheduleNext handle (setActive h (.val 0) c) := by
        simp [frameCallback, hs, hp, hi, plusOne, hlt, hl]
      rw [hf, scheduleNext_ok _ _ (setActive_result h _ c samples hs)]
      simp [setActive_ctl, ticksScheduled, Effect.isTick, List.countP_append, hs, hlt, hpos]
      simpa [ticksScheduled] using setActive_ticks h (.val 0) c

theorem frameCallback_step_witness :
    clip.samples = .val [lit "a", lit "b", lit "c"] ∧ clip.isPlaying = true ∧
    clip.activeIndex = .val 0 ∧ (0 : Int) ≤ 0 ∧
    (0 : Int) < ([lit "a", lit "b", lit "c"] : List JSString).length ∧
    (frameCallback sampleHelpers 5 clip).result = .ok () ∧
    (∃ j : Int, (frameCallback sampleHelpers 5 clip).ctl.activeIndex = .val j ∧
      0 ≤ j ∧ j < ([lit "a", lit "b", lit "c"] : List JSString).length) :=
  ⟨rfl, rfl, rfl, by decide, by decide,
    (frameCallback_step sampleHelpers 5 clip [lit "a", lit "b", lit "c"] 0 rfl rfl rfl
      (by decide) (by decide)).1,
    (frameCallback_step sampleHelpers 5 clip [lit "a", lit "b", lit "c"] 0 rfl rfl rfl
      (by decide) (by decide)).2.2.2.2.2⟩

end Enfugue
